import Mathlib

set_option maxHeartbeats 1000000

/-! Shallow embedding of the ConTest TestRunner pipeline core: the target
writer with timeouts (pkg/runner/test_runner.go), the per-step routing block
(stepRouter.routeIn, stepRouter.routeOut, stepRouter.route) and the TestRunner
entry point.  Channels and goroutine scheduling are modelled by explicit event
traces: each event names the select case that fired and the payload it carried;
the loop bodies are translated statement by statement into pure step functions
over explicit state records. -/

/-- A target under test (pkg/target).  Identity is by `id`. -/
structure Target where
  id : String
  name : String
  fqdn : String
deriving DecidableEq

/-- cerrors.TargetError: a target together with the error a step produced for
it.  The Go error value is modelled by its message string. -/
structure TargetError where
  target : Target
  err : String
deriving DecidableEq

/-- The four event names emitted by the routing block (target.EventTargetIn,
EventTargetInErr, EventTargetOut, EventTargetErr). -/
inductive EventName where
  | targetIn
  | targetInErr
  | targetOut
  | targetErr
deriving DecidableEq

/-- testevent.Data as populated by the routing block: an event name, the target
it concerns, and an optional raw JSON payload (modelled as the payload text). -/
structure EventData where
  eventName : EventName
  target : Target
  payload : Option String
deriving DecidableEq

/-- Lower-case hexadecimal digit, as used by encoding/json ("0123456789abcdef"). -/
def hexDigit (n : Nat) : Char :=
  if n < 10 then Char.ofNat (48 + n) else Char.ofNat (87 + n)

/-- The \u00XY escape encoding/json produces for a byte it cannot print. -/
def uEscapeByte (b : Nat) : String :=
  "\\u00" ++ String.singleton (hexDigit (b / 16)) ++ String.singleton (hexDigit (b % 16))

/-- Encoding of one character of a Go string by encoding/json's string encoder.
With `escapeHTML = true` (the json.Marshal default) the characters <, > and &
are written as <, >, &; with `escapeHTML = false` (an encoder
after SetEscapeHTML(false)) they are written literally.  Control characters and
the quote and backslash are escaped either way; U+2028 and U+2029 are always
\u-escaped. -/
def goEscapeChar (escapeHTML : Bool) (c : Char) : String :=
  if c = '"' then "\\\""
  else if c = '\\' then "\\\\"
  else if c = '\n' then "\\n"
  else if c = '\r' then "\\r"
  else if c = '\t' then "\\t"
  else if c.toNat < 32 then uEscapeByte c.toNat
  else if escapeHTML && (c = '<' || c = '>' || c = '&') then uEscapeByte c.toNat
  else if c.toNat = 8232 then "\\u2028"
  else if c.toNat = 8233 then "\\u2029"
  else String.singleton c

/-- encoding/json's encoding of a Go string (for valid UTF-8 input). -/
def goEncodeString (escapeHTML : Bool) (s : String) : String :=
  "\"" ++ String.join (s.data.map (goEscapeChar escapeHTML)) ++ "\""

/-- json.Marshal of target.ErrPayload{Error: msg} exactly as performed by
stepRouter.emitOutEvent: json.Marshal leaves HTML escaping at its default,
which is enabled. -/
def errPayload (msg : String) : String :=
  "\x7b" ++ goEncodeString true ("Error") ++ ":" ++ goEncodeString true msg ++ "\x7d"

/-- The encoding the specification describes for the TargetErr payload: the
same JSON object but with HTML escaping disabled (as an encoder configured with
SetEscapeHTML(false) would produce, e.g. job.Report.ToJSON).  This definition
follows the spec's words and exists to be compared with `errPayload`, which is
translated from the source of emitOutEvent. -/
def errPayloadNoHTMLEscape (msg : String) : String :=
  "\x7b" ++ goEncodeString false ("Error") ++ ":" ++ goEncodeString false msg ++ "\x7d"

/-- The event built by stepRouter.emitOutEvent: a TargetErr event with the
marshalled {"Error": msg} payload when the step reported an error for the
target, a payload-free TargetOut event otherwise. -/
def emitOutEvent (t : Target) (stepErr : Option String) : EventData :=
  match stepErr with
  | some m => { eventName := EventName.targetErr, target := t, payload := some (errPayload m) }
  | none => { eventName := EventName.targetOut, target := t, payload := none }

/-- The distinct error values constructed by the routing and writer code
(each constructor corresponds to one fmt.Errorf site, carrying its
arguments). -/
inductive RErr where
  | terminationRequested (stepLabel : String)
  | injectionFailed (t : Target) (stepLabel : String)
  | duplicateTarget (stepLabel : String) (t : Target)
  | countMismatch (stepLabel : String) (inTargets outTargets : Nat)
  | sendTimeout (timeout : Nat)
  | targetErrSendTimeout
deriving DecidableEq

/-- TestRunnerTimeouts (durations modelled as Nat). -/
structure TestRunnerTimeouts where
  stepInjectTimeout : Nat
  messageTimeout : Nat
  shutdownTimeout : Nat
  stepShutdownTimeout : Nat
deriving DecidableEq

/-- Which case of the three-way select inside targetWriter.writeTimeout (and
writeTargetError) fired first: context cancellation, completion of the channel
send, or expiry of the timeout. -/
inductive WriteOutcome where
  | ctxDone
  | sent
  | timedOut
deriving DecidableEq

/-- Result of one writer call: how many sends completed on the channel (the
select runs once, so this is 0 or 1) and the returned error. -/
structure WriteResult where
  sendCount : Nat
  err : Option RErr
deriving DecidableEq

/-- targetWriter.writeTimeout: one select over cancellation, the send, and
time.After(timeout).  Cancellation abandons the send and returns nil; a
completed send returns nil; timeout returns the timeout error.  There is no
retry: the function body is a single select. -/
def writeTimeout (timeout : Nat) (o : WriteOutcome) : WriteResult :=
  match o with
  | WriteOutcome.ctxDone => { sendCount := 0, err := none }
  | WriteOutcome.sent => { sendCount := 1, err := none }
  | WriteOutcome.timedOut => { sendCount := 0, err := some (RErr.sendTimeout timeout) }

/-- targetWriter.writeTargetError: the same single select, for TargetError
values, with its own (argument-free) timeout error message. -/
def writeTargetError (timeout : Nat) (o : WriteOutcome) : WriteResult :=
  match o with
  | WriteOutcome.ctxDone => { sendCount := 0, err := none }
  | WriteOutcome.sent => { sendCount := 1, err := none }
  | WriteOutcome.timedOut => { sendCount := 0, err := some RErr.targetErrSendTimeout }

/-- injectionResult: the {target, err} record posted on the result channel. -/
structure InjectionResultRec where
  target : Target
  err : Option RErr
deriving DecidableEq

/-- Which case of the select around posting the injection result fired first. -/
inductive PostOutcome where
  | ctxDone
  | posted
  | timedOut
deriving DecidableEq

/-- Observable outcome of targetWriter.writeTargetWithResult: the record was
delivered on resultCh, or the function returned with the record dropped because
the context was cancelled, or the process was aborted (Logger().Panicf). -/
inductive InjectionDelivery where
  | delivered (rec : InjectionResultRec)
  | droppedByCancel
  | abortedProcess
deriving DecidableEq

/-- targetWriter.writeTargetWithResult: first writeTimeout against stepIn with
the StepInject timeout, then a select posting {target, err} on resultCh bounded
by the Message timeout; cancellation drops the record silently, and a timeout
on the post is a process abort. -/
def writeTargetWithResult (tm : TestRunnerTimeouts) (t : Target) (inj : WriteOutcome)
    (post : PostOutcome) : InjectionDelivery :=
  let res := writeTimeout tm.stepInjectTimeout inj
  match post with
  | PostOutcome.ctxDone => InjectionDelivery.droppedByCancel
  | PostOutcome.posted => InjectionDelivery.delivered { target := t, err := res.err }
  | PostOutcome.timedOut => InjectionDelivery.abortedProcess

/-- Claim C3: writeTimeout (and writeTargetError, same contract) returns the
timeout error exactly when the send does not complete within the timeout,
returns nil with the send abandoned when the context is cancelled first,
returns nil when the send completes, and never performs more than one send
attempt (no retry). -/
theorem writeTimeout_writeTargetError_contract (d : Nat) :
    (writeTimeout d WriteOutcome.timedOut).err = some (RErr.sendTimeout d)
    ∧ (writeTimeout d WriteOutcome.timedOut).sendCount = 0
    ∧ (writeTimeout d WriteOutcome.ctxDone).err = none
    ∧ (writeTimeout d WriteOutcome.ctxDone).sendCount = 0
    ∧ (writeTimeout d WriteOutcome.sent).err = none
    ∧ (∀ o : WriteOutcome, (writeTimeout d o).sendCount ≤ 1)
    ∧ (writeTargetError d WriteOutcome.timedOut).err = some RErr.targetErrSendTimeout
    ∧ (writeTargetError d WriteOutcome.timedOut).sendCount = 0
    ∧ (writeTargetError d WriteOutcome.ctxDone).err = none
    ∧ (writeTargetError d WriteOutcome.ctxDone).sendCount = 0
    ∧ (writeTargetError d WriteOutcome.sent).err = none
    ∧ (∀ o : WriteOutcome, (writeTargetError d o).sendCount ≤ 1) := by
  refine ⟨rfl, rfl, rfl, rfl, rfl, ?_, rfl, rfl, rfl, rfl, rfl, ?_⟩ <;>
    intro o <;> cases o <;> simp [writeTimeout, writeTargetError]

/-- Claim C4: writeTargetWithResult attempts the injection with the StepInject
timeout and then posts the {target, err} record on the result channel; when the
post completes the delivered record carries exactly the target and the
injection error (in particular the StepInject timeout error when the injection
timed out), and when posting the result itself times out the process is aborted
rather than the function returning. -/
theorem writeTargetWithResult_posts_record_or_aborts (tm : TestRunnerTimeouts)
    (t : Target) (inj : WriteOutcome) :
    writeTargetWithResult tm t inj PostOutcome.posted
      = InjectionDelivery.delivered { target := t, err := (writeTimeout tm.stepInjectTimeout inj).err }
    ∧ writeTargetWithResult tm t WriteOutcome.timedOut PostOutcome.posted
      = InjectionDelivery.delivered { target := t, err := some (RErr.sendTimeout tm.stepInjectTimeout) }
    ∧ writeTargetWithResult tm t inj PostOutcome.timedOut = InjectionDelivery.abortedProcess := by
  exact ⟨rfl, rfl, rfl⟩

/-- Claim C10: when the context is cancelled before the injection result can be
posted, writeTargetWithResult returns without delivering any record and without
aborting the process: the result is silently dropped. -/
theorem writeTargetWithResult_cancel_drops_result (tm : TestRunnerTimeouts)
    (t : Target) (inj : WriteOutcome) :
    writeTargetWithResult tm t inj PostOutcome.ctxDone = InjectionDelivery.droppedByCancel := by
  rfl

/-- Insertion into a Go map modelled as a list of keys: a fresh key is
appended, an existing key only has its value (a timestamp, not modelled)
overwritten, so the key list is unchanged. -/
def mapInsert (m : List String) (k : String) : List String :=
  if k ∈ m then m else m ++ [k]

/-- One firing of the select at the head of stepRouter.routeIn: termination
request, an injection result (carrying whether the injection failed and whether
the subsequent event emission succeeded), a target received from the routeIn
channel, or the routeIn channel closing. -/
inductive RouteInEvent where
  | cancelled
  | injResult (t : Target) (failed : Bool) (emitOk : Bool)
  | recv (t : Target)
  | inClosed
deriving DecidableEq

/-- State of the routeIn loop.  `buffer` is the container/list FIFO (PushFront
on arrival, Back/Remove(Back) on dequeue), so the head is the newest element
and the last element is the oldest.  `inflight` counts injection goroutines
that have been launched and whose result has not yet been received (the code
tracks this with the boolean routeInProgress; the counter is kept separately so
that the at-most-one-inflight discipline is provable rather than assumed).
`injected` records the launch order of injections.  `warnCount` counts Warnf
log lines for failed event emissions. -/
structure RouteInState where
  buffer : List Target
  routeInOpen : Bool
  routeInProgress : Bool
  inflight : Nat
  ingress : List String
  injected : List Target
  events : List EventData
  warnCount : Nat
  stepInCloseCount : Nat
  err : Option RErr
  finished : Bool
deriving DecidableEq

/-- Initial routeIn state: empty buffer, open input channel, no injection in
flight. -/
def routeInInit : RouteInState :=
  { buffer := [], routeInOpen := true, routeInProgress := false, inflight := 0,
    ingress := [], injected := [], events := [], warnCount := 0,
    stepInCloseCount := 0, err := none, finished := false }

/-- The select statement of routeIn, translated case by case from the source:
cancellation sets the routing error; an injection result clears
routeInProgress, then either records the injection failure and emits
TargetInErr or emits TargetIn (emission failures are only logged); a received
target is pushed at the front of the buffer; a closed input channel is marked
by nil-ing the channel (routeInOpen := false). -/
def routeInSelect (label : String) (s : RouteInState) (e : RouteInEvent) : RouteInState :=
  match e with
  | RouteInEvent.cancelled =>
      { s with err := some (RErr.terminationRequested label) }
  | RouteInEvent.injResult t failed emitOk =>
      let s0 := { s with routeInProgress := false, inflight := s.inflight - 1 }
      if failed then
        { s0 with err := some (RErr.injectionFailed t label),
                  events := s0.events ++ [{ eventName := EventName.targetInErr, target := t, payload := none }],
                  warnCount := s0.warnCount + (if emitOk then 0 else 1) }
      else
        { s0 with events := s0.events ++ [{ eventName := EventName.targetIn, target := t, payload := none }],
                  warnCount := s0.warnCount + (if emitOk then 0 else 1) }
  | RouteInEvent.recv t => { s with buffer := t :: s.buffer }
  | RouteInEvent.inClosed => { s with routeInOpen := false }

/-- The code after the select in the routeIn loop: break on error; continue if
an injection is in flight; if the buffer is empty, close stepIn and exit when
the input channel has closed, otherwise continue; if the buffer is non-empty,
dequeue the oldest target (Back), record its ingress time, and launch an
asynchronous injection. -/
def routeInPost (s : RouteInState) : RouteInState :=
  if s.err.isSome then { s with finished := true }
  else if s.routeInProgress then s
  else
    match s.buffer with
    | [] =>
        if s.routeInOpen then s
        else { s with stepInCloseCount := s.stepInCloseCount + 1, finished := true }
    | b :: bs =>
        let t := (b :: bs).getLast (List.cons_ne_nil b bs)
        { s with buffer := (b :: bs).dropLast,
                 ingress := mapInsert s.ingress t.id,
                 injected := s.injected ++ [t],
                 routeInProgress := true,
                 inflight := s.inflight + 1 }

/-- One iteration of the routeIn loop (select followed by the post-select
code); once the loop has exited, nothing changes. -/
def routeInStep (label : String) (s : RouteInState) (e : RouteInEvent) : RouteInState :=
  if s.finished then s else routeInPost (routeInSelect label s e)

/-- Run of routeIn over a trace of select firings. -/
def routeInRun (label : String) (s : RouteInState) : List RouteInEvent → RouteInState
  | [] => s
  | e :: es => routeInRun label (routeInStep label s e) es

/-- Admissibility of one select firing: the loop only selects while it has not
exited; a result can only arrive from an injection goroutine that is in flight;
receiving and close notifications only happen while the routeIn channel is
still open (a nil channel blocks forever). -/
def routeInEventOK (s : RouteInState) (e : RouteInEvent) : Bool :=
  !s.finished &&
    (match e with
     | RouteInEvent.injResult _ _ _ => decide (1 ≤ s.inflight)
     | RouteInEvent.recv _ => s.routeInOpen
     | RouteInEvent.inClosed => s.routeInOpen
     | RouteInEvent.cancelled => true)

/-- Admissibility of a whole trace of select firings. -/
def routeInValidTrace (label : String) (s : RouteInState) : List RouteInEvent → Bool
  | [] => true
  | e :: es => routeInEventOK s e && routeInValidTrace label (routeInStep label s e) es

/-- The targets delivered by the previous routing block within one event. -/
def recvTargets : RouteInEvent → List Target
  | RouteInEvent.recv t => [t]
  | _ => []

/-- The arrival order of targets on the routeIn channel over a trace. -/
def arrivalsOf : List RouteInEvent → List Target
  | [] => []
  | e :: es => recvTargets e ++ arrivalsOf es

/-- Inductive invariant of the routeIn loop. -/
def RouteInInv (s : RouteInState) : Prop :=
  s.inflight = (if s.routeInProgress then 1 else 0)
  ∧ s.stepInCloseCount ≤ 1
  ∧ (s.stepInCloseCount = 1 →
      s.finished = true ∧ s.routeInOpen = false ∧ s.buffer = [] ∧ s.routeInProgress = false)
  ∧ (s.finished = false → s.err = none)
  ∧ (s.finished = true → (s.err = none ↔ s.stepInCloseCount = 1))

theorem routeInInit_inv : RouteInInv routeInInit := by
  refine ⟨rfl, ?_, ?_, ?_, ?_⟩ <;> simp [routeInInit]

/-- Dequeuing the oldest buffered target (the Back of the list) moves it from
the buffer to the end of the injected sequence without disturbing the overall
arrival order. -/
theorem dequeue_append_eq (inj : List Target) (l : List Target) (h : l ≠ []) :
    (inj ++ [l.getLast h]) ++ (l.dropLast).reverse = inj ++ l.reverse := by
  conv_rhs => rw [← List.dropLast_append_getLast h]
  simp [List.reverse_append, List.append_assoc]

/-- Reading the Back of the buffer and dropping it decomposes the reversed
buffer into its oldest element followed by the rest. -/
theorem getLast_cons_dropLast_reverse (l : List Target) (h : l ≠ []) :
    l.getLast h :: (l.dropLast).reverse = l.reverse := by
  conv_rhs => rw [← List.dropLast_append_getLast h]
  simp [List.reverse_append]

/-- Variant of the previous decomposition under a trailing context. -/
theorem getLast_cons_dropLast_reverse_append (l : List Target) (h : l ≠ []) (r : List Target) :
    l.getLast h :: ((l.dropLast).reverse ++ r) = l.reverse ++ r := by
  rw [← List.cons_append, getLast_cons_dropLast_reverse]

/-- Any routeIn iteration taken before the loop has exited moves exactly the
targets received in that iteration from the arrival sequence into
injected-or-buffered position: launch order plus buffered backlog always equals
arrival order. -/
theorem routeInStep_equation (label : String) (s : RouteInState) (e : RouteInEvent)
    (hf : s.finished = false) :
    (routeInStep label s e).injected ++ ((routeInStep label s e).buffer).reverse
      = s.injected ++ s.buffer.reverse ++ recvTargets e := by
  cases e with
  | cancelled => simp [routeInStep, hf, routeInSelect, routeInPost, recvTargets]
  | injResult t failed emitOk =>
      cases failed <;> cases hp : s.routeInProgress <;> cases hb : s.buffer <;>
        cases ho : s.routeInOpen <;> cases he : s.err <;>
        simp [routeInStep, hf, routeInSelect, routeInPost, recvTargets, hp, hb, ho, he,
          dequeue_append_eq, getLast_cons_dropLast_reverse]
  | recv t =>
      cases hp : s.routeInProgress <;> cases hb : s.buffer <;>
        cases ho : s.routeInOpen <;> cases he : s.err <;>
        simp [routeInStep, hf, routeInSelect, routeInPost, recvTargets, hp, hb, ho, he,
          dequeue_append_eq, getLast_cons_dropLast_reverse, getLast_cons_dropLast_reverse_append,
          List.reverse_cons, List.append_assoc]
  | inClosed =>
      cases hp : s.routeInProgress <;> cases hb : s.buffer <;> cases he : s.err <;>
        simp [routeInStep, hf, routeInSelect, routeInPost, recvTargets, hp, hb, he,
          dequeue_append_eq, getLast_cons_dropLast_reverse]

/-- One admissible routeIn iteration preserves the loop invariant. -/
theorem routeInStep_inv (label : String) (s : RouteInState) (e : RouteInEvent)
    (hOK : routeInEventOK s e = true) (hInv : RouteInInv s) :
    RouteInInv (routeInStep label s e) := by
  obtain ⟨h1, h2, h3, h4, h5⟩ := hInv
  have hf : s.finished = false := by
    cases hfin : s.finished
    · rfl
    · simp [routeInEventOK, hfin] at hOK
  have herr : s.err = none := h4 hf
  have hc0 : s.stepInCloseCount = 0 := by
    rcases Nat.lt_or_ge s.stepInCloseCount 1 with h | h
    · omega
    · have hc1 : s.stepInCloseCount = 1 := by omega
      have hcontra := (h3 hc1).1
      rw [hf] at hcontra
      exact absurd hcontra (by simp)
  cases e with
  | cancelled =>
      refine ⟨?_, ?_, ?_, ?_, ?_⟩ <;>
        simp [routeInStep, routeInSelect, routeInPost, hf, herr, hc0, h1]
  | injResult t failed emitOk =>
      have hle : 1 ≤ s.inflight := by simpa [routeInEventOK, hf] using hOK
      have hp : s.routeInProgress = true := by
        cases hp' : s.routeInProgress
        · rw [hp'] at h1; simp at h1; omega
        · rfl
      have hinf : s.inflight = 1 := by rw [hp] at h1; simpa using h1
      cases failed with
      | true =>
          refine ⟨?_, ?_, ?_, ?_, ?_⟩ <;>
            simp [routeInStep, routeInSelect, routeInPost, hf, herr, hc0, hp, hinf]
      | false =>
          cases hb : s.buffer with
          | nil =>
              cases ho : s.routeInOpen <;>
                refine ⟨?_, ?_, ?_, ?_, ?_⟩ <;>
                  simp [routeInStep, routeInSelect, routeInPost, hf, herr, hc0, hp, hinf, hb, ho]
          | cons b bs =>
              refine ⟨?_, ?_, ?_, ?_, ?_⟩ <;>
                simp [routeInStep, routeInSelect, routeInPost, hf, herr, hc0, hp, hinf, hb]
  | recv t =>
      cases hp : s.routeInProgress <;>
        (refine ⟨?_, ?_, ?_, ?_, ?_⟩ <;>
          simp [routeInStep, routeInSelect, routeInPost, hf, herr, hc0, hp, h1])
  | inClosed =>
      cases hp : s.routeInProgress with
      | true =>
          refine ⟨?_, ?_, ?_, ?_, ?_⟩ <;>
            simp [routeInStep, routeInSelect, routeInPost, hf, herr, hc0, hp, h1]
      | false =>
          cases hb : s.buffer with
          | nil =>
              refine ⟨?_, ?_, ?_, ?_, ?_⟩ <;>
                simp [routeInStep, routeInSelect, routeInPost, hf, herr, hc0, hp, hb, h1]
          | cons b bs =>
              refine ⟨?_, ?_, ?_, ?_, ?_⟩ <;>
                simp [routeInStep, routeInSelect, routeInPost, hf, herr, hc0, hp, hb, h1]

/-- Over any admissible trace, the routeIn loop keeps its invariant and the
launch order of injections extended by the buffered backlog equals the arrival
order on the routeIn channel. -/
theorem routeInRun_inv (label : String) (tr : List RouteInEvent) (s : RouteInState)
    (hv : routeInValidTrace label s tr = true) (hInv : RouteInInv s) :
    RouteInInv (routeInRun label s tr)
    ∧ (routeInRun label s tr).injected ++ ((routeInRun label s tr).buffer).reverse
        = s.injected ++ s.buffer.reverse ++ arrivalsOf tr := by
  induction tr generalizing s with
  | nil => simpa [routeInRun, arrivalsOf] using hInv
  | cons e es ih =>
      rw [routeInValidTrace, Bool.and_eq_true] at hv
      obtain ⟨hOK, hrest⟩ := hv
      have hf : s.finished = false := by
        cases hfin : s.finished
        · rfl
        · simp [routeInEventOK, hfin] at hOK
      have hstep := routeInStep_inv label s e hOK hInv
      have heq := routeInStep_equation label s e hf
      obtain ⟨ih1, ih2⟩ := ih (routeInStep label s e) hrest hstep
      refine ⟨ih1, ?_⟩
      calc (routeInRun label (routeInStep label s e) es).injected
            ++ ((routeInRun label (routeInStep label s e) es).buffer).reverse
          = (routeInStep label s e).injected ++ ((routeInStep label s e).buffer).reverse
              ++ arrivalsOf es := ih2
        _ = s.injected ++ s.buffer.reverse ++ recvTargets e ++ arrivalsOf es := by rw [heq]
        _ = s.injected ++ s.buffer.reverse ++ arrivalsOf (e :: es) := by
              simp [arrivalsOf, List.append_assoc]

/-- Example targets used by concrete instantiations. -/
def tgtA : Target := { id := "0001", name := "machineA", fqdn := "a.example.org" }

/-- A second example target. -/
def tgtB : Target := { id := "0002", name := "machineB", fqdn := "b.example.org" }

/-- Example timeout configuration (the recommended defaults, in seconds). -/
def tmEx : TestRunnerTimeouts :=
  { stepInjectTimeout := 30, messageTimeout := 5, shutdownTimeout := 1, stepShutdownTimeout := 1 }

/-- Claim C5 counterexample: the admissible run consisting of a single
cancellation firing finishes without ever closing stepIn (close count 0), so it
is not the case that every run of routeIn closes the step input channel exactly
once. -/
theorem routeIn_stepIn_close_counterexample :
    routeInValidTrace ("step1") routeInInit [RouteInEvent.cancelled] = true
    ∧ (routeInRun ("step1") routeInInit [RouteInEvent.cancelled]).finished = true
    ∧ (routeInRun ("step1") routeInInit [RouteInEvent.cancelled]).stepInCloseCount = 0 := by
  refine ⟨by decide, by decide, by decide⟩

/-- Claim C5 (amended): over any admissible run of routeIn, stepIn is closed at
most once, and only in a state where the routeIn input channel has closed, the
FIFO buffer is empty and no injection is in flight; runs that finish without a
routing error have closed stepIn exactly once, while runs aborted by
cancellation or injection failure exit without closing it. -/
theorem routeIn_stepIn_close_discipline (label : String) (tr : List RouteInEvent)
    (hv : routeInValidTrace label routeInInit tr = true) :
    (routeInRun label routeInInit tr).stepInCloseCount ≤ 1
    ∧ ((routeInRun label routeInInit tr).stepInCloseCount = 1 →
        (routeInRun label routeInInit tr).routeInOpen = false
        ∧ (routeInRun label routeInInit tr).buffer = []
        ∧ (routeInRun label routeInInit tr).routeInProgress = false)
    ∧ ((routeInRun label routeInInit tr).finished = true →
        (routeInRun label routeInInit tr).err = none →
        (routeInRun label routeInInit tr).stepInCloseCount = 1)
    ∧ ((routeInRun label routeInInit tr).err ≠ none →
        (routeInRun label routeInInit tr).stepInCloseCount = 0) := by
  obtain ⟨⟨h1, h2, h3, h4, h5⟩, heq⟩ := routeInRun_inv label tr routeInInit hv routeInInit_inv
  refine ⟨h2, fun hc => (h3 hc).2, fun hfin herr => (h5 hfin).mp herr, fun herr => ?_⟩
  by_contra hc
  have hc1 : (routeInRun label routeInInit tr).stepInCloseCount = 1 := by omega
  exact herr ((h5 (h3 hc1).1).mpr hc1)

/-- Witness for C5: the run that buffers one target, sees its input close, and
receives the successful injection result closes stepIn exactly once, in the
state with the input closed, the buffer drained and nothing in flight; and the
run aborted by an injection failure exits with a routing error and without
closing stepIn. -/
theorem routeIn_stepIn_close_discipline_witness :
    (routeInRun ("w5") routeInInit
        [RouteInEvent.recv tgtA, RouteInEvent.inClosed,
          RouteInEvent.injResult tgtA false true]).stepInCloseCount = 1
    ∧ (routeInRun ("w5") routeInInit
        [RouteInEvent.recv tgtA, RouteInEvent.inClosed,
          RouteInEvent.injResult tgtA false true]).routeInOpen = false
    ∧ (routeInRun ("w5") routeInInit
        [RouteInEvent.recv tgtA, RouteInEvent.inClosed,
          RouteInEvent.injResult tgtA false true]).buffer = []
    ∧ (routeInRun ("w5") routeInInit
        [RouteInEvent.recv tgtA, RouteInEvent.inClosed,
          RouteInEvent.injResult tgtA false true]).routeInProgress = false
    ∧ (routeInRun ("w5f") routeInInit
        [RouteInEvent.recv tgtA, RouteInEvent.injResult tgtA true true]).err ≠ none
    ∧ (routeInRun ("w5f") routeInInit
        [RouteInEvent.recv tgtA, RouteInEvent.injResult tgtA true true]).stepInCloseCount = 0 := by
  have hClean := routeIn_stepIn_close_discipline ("w5")
    [RouteInEvent.recv tgtA, RouteInEvent.inClosed, RouteInEvent.injResult tgtA false true]
    (by decide)
  have hAbort := routeIn_stepIn_close_discipline ("w5f")
    [RouteInEvent.recv tgtA, RouteInEvent.injResult tgtA true true] (by decide)
  have hc1 := hClean.2.2.1 (by decide) (by decide)
  exact ⟨hc1, (hClean.2.1 hc1).1, (hClean.2.1 hc1).2.1, (hClean.2.1 hc1).2.2,
    by decide, hAbort.2.2.2 (by decide)⟩

/-- Claim C6: over any admissible run of routeIn, at most one injection into
the step is in flight at a time, and the sequence of targets dequeued and
injected is a prefix of the sequence of arrivals on the routeIn channel: FIFO
injection order. -/
theorem routeIn_single_inflight_fifo (label : String) (tr : List RouteInEvent)
    (hv : routeInValidTrace label routeInInit tr = true) :
    (routeInRun label routeInInit tr).inflight ≤ 1
    ∧ ((routeInRun label routeInInit tr).injected).isPrefixOf (arrivalsOf tr) = true := by
  obtain ⟨⟨h1, h2, h3, h4, h5⟩, heq⟩ := routeInRun_inv label tr routeInInit hv routeInInit_inv
  constructor
  · rw [h1]; cases (routeInRun label routeInInit tr).routeInProgress <;> simp
  · rw [List.isPrefixOf_iff_prefix]
    exact ⟨((routeInRun label routeInInit tr).buffer).reverse, by simpa [routeInInit] using heq⟩

/-- Witness for C6: two targets arrive while the first injection is pending;
the injections happen in arrival order and never overlap. -/
theorem routeIn_single_inflight_fifo_witness :
    (routeInRun ("w6") routeInInit
        [RouteInEvent.recv tgtA, RouteInEvent.recv tgtB,
          RouteInEvent.injResult tgtA false true]).inflight ≤ 1
    ∧ ((routeInRun ("w6") routeInInit
        [RouteInEvent.recv tgtA, RouteInEvent.recv tgtB,
          RouteInEvent.injResult tgtA false true]).injected).isPrefixOf
        (arrivalsOf [RouteInEvent.recv tgtA, RouteInEvent.recv tgtB,
          RouteInEvent.injResult tgtA false true]) = true :=
  routeIn_single_inflight_fifo ("w6")
    [RouteInEvent.recv tgtA, RouteInEvent.recv tgtB, RouteInEvent.injResult tgtA false true]
    (by decide)

/-- One firing of the select at the head of stepRouter.routeOut: termination
request, a target received on stepOut (with the Emit outcome for its TargetOut
event and the select outcome of the forward on routeOut), the stepOut channel
closing, a TargetError received on stepErr (with the Emit outcome for its
TargetErr event and the select outcome of the forward on targetErr), or the
stepErr channel closing. -/
inductive RouteOutEvent where
  | cancelled
  | outRecv (t : Target) (emitOk : Bool) (fwd : WriteOutcome)
  | outClosed
  | errRecv (te : TargetError) (emitOk : Bool) (fwd : WriteOutcome)
  | errClosed
deriving DecidableEq

/-- State of the routeOut loop.  `egress` is the key list of the egressTarget
map; `forwardedOut` and `forwardedErr` record the targets whose forwarding send
actually completed on routeOut and on the shared targetErr channel;
`panicked` records a log.Panicf on a failed forward. -/
structure RouteOutState where
  stepOutOpen : Bool
  stepErrOpen : Bool
  egress : List String
  forwardedOut : List Target
  forwardedErr : List TargetError
  events : List EventData
  warnCount : Nat
  routeOutCloseCount : Nat
  err : Option RErr
  panicked : Bool
  finished : Bool
deriving DecidableEq

/-- Initial routeOut state: both step channels open, empty egress set. -/
def routeOutInit : RouteOutState :=
  { stepOutOpen := true, stepErrOpen := true, egress := [], forwardedOut := [],
    forwardedErr := [], events := [], warnCount := 0, routeOutCloseCount := 0,
    err := none, panicked := false, finished := false }

/-- The select statement of routeOut, translated case by case from the source.
A target already present in the egress set produces the duplicate-target error
and nothing else.  Otherwise routeOut emits the TargetOut / TargetErr event
(emission failures are only logged as a warning, by emitOutEvent itself for
TargetOut and by the caller for TargetErr), records the egress time, and
forwards the target with the Message timeout through writeTimeout /
writeTargetError; a timeout on the forward is a log.Panicf. -/
def routeOutSelect (label : String) (tm : TestRunnerTimeouts) (s : RouteOutState)
    (e : RouteOutEvent) : RouteOutState :=
  match e with
  | RouteOutEvent.cancelled => { s with err := some (RErr.terminationRequested label) }
  | RouteOutEvent.outClosed => { s with stepOutOpen := false }
  | RouteOutEvent.errClosed => { s with stepErrOpen := false }
  | RouteOutEvent.outRecv t emitOk fwd =>
      if t.id ∈ s.egress then { s with err := some (RErr.duplicateTarget label t) }
      else
        let s1 := { s with events := s.events ++ [emitOutEvent t none],
                           warnCount := s.warnCount + (if emitOk then 0 else 1),
                           egress := s.egress ++ [t.id] }
        let w := writeTimeout tm.messageTimeout fwd
        if w.err.isSome then { s1 with panicked := true, finished := true }
        else { s1 with forwardedOut := s1.forwardedOut ++ (if w.sendCount = 1 then [t] else []) }
  | RouteOutEvent.errRecv te emitOk fwd =>
      if te.target.id ∈ s.egress then { s with err := some (RErr.duplicateTarget label te.target) }
      else
        let s1 := { s with events := s.events ++ [emitOutEvent te.target (some te.err)],
                           warnCount := s.warnCount + (if emitOk then 0 else 1),
                           egress := s.egress ++ [te.target.id] }
        let w := writeTargetError tm.messageTimeout fwd
        if w.err.isSome then { s1 with panicked := true, finished := true }
        else { s1 with forwardedErr := s1.forwardedErr ++ (if w.sendCount = 1 then [te] else []) }

/-- The code after the select in the routeOut loop: break on error; when both
stepOut and stepErr have closed, close routeOut and exit cleanly. -/
def routeOutPost (s : RouteOutState) : RouteOutState :=
  if s.finished then s
  else if s.err.isSome then { s with finished := true }
  else if !s.stepOutOpen && !s.stepErrOpen then
    { s with routeOutCloseCount := s.routeOutCloseCount + 1, finished := true }
  else s

/-- One iteration of the routeOut loop; once the loop has exited (including by
log.Panicf on a failed forward), nothing changes. -/
def routeOutStep (label : String) (tm : TestRunnerTimeouts) (s : RouteOutState)
    (e : RouteOutEvent) : RouteOutState :=
  if s.finished then s else routeOutPost (routeOutSelect label tm s e)

/-- Run of routeOut over a trace of select firings. -/
def routeOutRun (label : String) (tm : TestRunnerTimeouts) (s : RouteOutState) :
    List RouteOutEvent → RouteOutState
  | [] => s
  | e :: es => routeOutRun label tm (routeOutStep label tm s e) es

/-- The post-select code of routeOut never touches the egress set. -/
theorem routeOutPost_egress (s : RouteOutState) : (routeOutPost s).egress = s.egress := by
  unfold routeOutPost
  split
  · rfl
  · split
    · rfl
    · split <;> rfl

/-- The post-select code of routeOut never touches the emitted-event log. -/
theorem routeOutPost_events (s : RouteOutState) : (routeOutPost s).events = s.events := by
  unfold routeOutPost
  split
  · rfl
  · split
    · rfl
    · split <;> rfl

/-- A single routeOut iteration keeps the egress key list duplicate-free: an
identifier is only appended after the membership check failed. -/
theorem routeOutStep_egress_nodup (label : String) (tm : TestRunnerTimeouts)
    (s : RouteOutState) (e : RouteOutEvent) (h : s.egress.Nodup) :
    ((routeOutStep label tm s e).egress).Nodup := by
  cases hf : s.finished
  · cases e with
    | cancelled => simpa [routeOutStep, routeOutSelect, hf, routeOutPost_egress] using h
    | outClosed => simpa [routeOutStep, routeOutSelect, hf, routeOutPost_egress] using h
    | errClosed => simpa [routeOutStep, routeOutSelect, hf, routeOutPost_egress] using h
    | outRecv t ek fw =>
        by_cases hmem : t.id ∈ s.egress
        · simpa [routeOutStep, routeOutSelect, hf, hmem, routeOutPost_egress] using h
        · cases fw <;>
            simp [routeOutStep, routeOutSelect, hf, hmem, routeOutPost_egress, writeTimeout,
              List.nodup_append, h]
    | errRecv te ek fw =>
        by_cases hmem : te.target.id ∈ s.egress
        · simpa [routeOutStep, routeOutSelect, hf, hmem, routeOutPost_egress] using h
        · cases fw <;>
            simp [routeOutStep, routeOutSelect, hf, hmem, routeOutPost_egress, writeTargetError,
              List.nodup_append, h]
  · simpa [routeOutStep, hf] using h

/-- Over any trace, the egress key list of routeOut stays duplicate-free. -/
theorem routeOutRun_egress_nodup (label : String) (tm : TestRunnerTimeouts)
    (tr : List RouteOutEvent) (s : RouteOutState) (h : s.egress.Nodup) :
    ((routeOutRun label tm s tr).egress).Nodup := by
  induction tr generalizing s with
  | nil => simpa [routeOutRun] using h
  | cons e es ih => exact ih (routeOutStep label tm s e) (routeOutStep_egress_nodup label tm s e h)

/-- Claim C7: no target ID is recorded twice in the egress set across stepOut
and stepErr; whenever routeOut receives a target (on either channel) whose ID
is already in the egress set, it exits with the duplicate-target error, with
no event emitted and nothing forwarded. -/
theorem routeOut_no_duplicate_egress (label : String) (tm : TestRunnerTimeouts)
    (tr : List RouteOutEvent) :
    ((routeOutRun label tm routeOutInit tr).egress).Nodup
    ∧ (∀ s : RouteOutState, ∀ t : Target, ∀ ek : Bool, ∀ fw : WriteOutcome,
        s.finished = false → t.id ∈ s.egress →
        routeOutStep label tm s (RouteOutEvent.outRecv t ek fw)
          = { s with err := some (RErr.duplicateTarget label t), finished := true })
    ∧ (∀ s : RouteOutState, ∀ te : TargetError, ∀ ek : Bool, ∀ fw : WriteOutcome,
        s.finished = false → te.target.id ∈ s.egress →
        routeOutStep label tm s (RouteOutEvent.errRecv te ek fw)
          = { s with err := some (RErr.duplicateTarget label te.target), finished := true }) := by
  refine ⟨routeOutRun_egress_nodup label tm tr routeOutInit (by simp [routeOutInit]), ?_, ?_⟩
  · intro s t ek fw hf hmem
    simp [routeOutStep, routeOutSelect, routeOutPost, hf, hmem]
  · intro s te ek fw hf hmem
    simp [routeOutStep, routeOutSelect, routeOutPost, hf, hmem]

/-- A routeOut state in which target 0001 has already egressed (used by
concrete instantiations). -/
def sDupEx : RouteOutState :=
  routeOutRun ("w7") tmEx routeOutInit [RouteOutEvent.outRecv tgtA true WriteOutcome.sent]

/-- Witness for C7: after target 0001 has egressed via stepOut, receiving a
target with the same ID again on stepOut or on stepErr aborts with the
duplicate-target error. -/
theorem routeOut_no_duplicate_egress_witness :
    ((routeOutRun ("w7") tmEx routeOutInit
        [RouteOutEvent.outRecv tgtA true WriteOutcome.sent]).egress).Nodup
    ∧ routeOutStep ("w7") tmEx sDupEx (RouteOutEvent.outRecv tgtA true WriteOutcome.sent)
        = { sDupEx with err := some (RErr.duplicateTarget ("w7") tgtA), finished := true }
    ∧ routeOutStep ("w7") tmEx sDupEx
        (RouteOutEvent.errRecv { target := tgtA, err := "boom" } true WriteOutcome.sent)
        = { sDupEx with err := some (RErr.duplicateTarget ("w7") tgtA), finished := true } :=
  have h := routeOut_no_duplicate_egress ("w7") tmEx
    [RouteOutEvent.outRecv tgtA true WriteOutcome.sent]
  ⟨h.1, h.2.1 sDupEx tgtA true WriteOutcome.sent (by decide) (by decide),
    h.2.2 sDupEx { target := tgtA, err := "boom" } true WriteOutcome.sent (by decide) (by decide)⟩

/-- The routing-relevant view of a routeIn state: every field except the
count of warning log lines. -/
def routeInView (s : RouteInState) : RouteInState := { s with warnCount := 0 }

/-- The routing-relevant view of a routeOut state: every field except the
count of warning log lines. -/
def routeOutView (s : RouteOutState) : RouteOutState := { s with warnCount := 0 }

/-- The post-select code of routeIn commutes with dropping the warning
counter. -/
theorem routeInPost_view (s : RouteInState) :
    routeInView (routeInPost s) = routeInPost (routeInView s) := by
  unfold routeInPost routeInView
  cases he : s.err <;> cases hp : s.routeInProgress <;> cases hb : s.buffer <;>
    cases ho : s.routeInOpen <;> simp [he, hp, hb, ho]

/-- The post-select code of routeOut commutes with dropping the warning
counter. -/
theorem routeOutPost_view (s : RouteOutState) :
    routeOutView (routeOutPost s) = routeOutPost (routeOutView s) := by
  unfold routeOutPost routeOutView
  cases he : s.err <;> cases h1 : s.stepOutOpen <;> cases h2 : s.stepErrOpen <;>
    cases hf : s.finished <;> simp [he, h1, h2, hf]

/-- Claim C9: for each of the four event emissions (TargetIn and TargetInErr in
routeIn, TargetOut and TargetErr in routeOut), a failing Emit leaves the
routing block in exactly the same routing state as a successful one — same
routing error, same egress bookkeeping, same forwarded targets, same emitted
events; the failure is only logged (the warning counter, erased by the view,
is the only difference). -/
theorem emission_errors_never_affect_routing (label : String) (tm : TestRunnerTimeouts)
    (sIn : RouteInState) (sOut : RouteOutState) (t : Target) (te : TargetError)
    (failed : Bool) (fwd : WriteOutcome) :
    routeInView (routeInStep label sIn (RouteInEvent.injResult t failed true))
      = routeInView (routeInStep label sIn (RouteInEvent.injResult t failed false))
    ∧ routeOutView (routeOutStep label tm sOut (RouteOutEvent.outRecv t true fwd))
      = routeOutView (routeOutStep label tm sOut (RouteOutEvent.outRecv t false fwd))
    ∧ routeOutView (routeOutStep label tm sOut (RouteOutEvent.errRecv te true fwd))
      = routeOutView (routeOutStep label tm sOut (RouteOutEvent.errRecv te false fwd)) := by
  have hselIn : routeInView (routeInSelect label sIn (RouteInEvent.injResult t failed true))
      = routeInView (routeInSelect label sIn (RouteInEvent.injResult t failed false)) := by
    cases failed <;> simp [routeInSelect, routeInView]
  have hselOut : routeOutView (routeOutSelect label tm sOut (RouteOutEvent.outRecv t true fwd))
      = routeOutView (routeOutSelect label tm sOut (RouteOutEvent.outRecv t false fwd)) := by
    by_cases hmem : t.id ∈ sOut.egress <;> cases fwd <;>
      simp [routeOutSelect, routeOutView, hmem, writeTimeout]
  have hselErr : routeOutView (routeOutSelect label tm sOut (RouteOutEvent.errRecv te true fwd))
      = routeOutView (routeOutSelect label tm sOut (RouteOutEvent.errRecv te false fwd)) := by
    by_cases hmem : te.target.id ∈ sOut.egress <;> cases fwd <;>
      simp [routeOutSelect, routeOutView, hmem, writeTargetError]
  refine ⟨?_, ?_, ?_⟩
  · cases hf : sIn.finished
    · simp only [routeInStep, hf, Bool.false_eq_true, if_false]
      rw [routeInPost_view, routeInPost_view, hselIn]
    · simp [routeInStep, hf]
  · cases hf : sOut.finished
    · simp only [routeOutStep, hf, Bool.false_eq_true, if_false]
      rw [routeOutPost_view, routeOutPost_view, hselOut]
    · simp [routeOutStep, hf]
  · cases hf : sOut.finished
    · simp only [routeOutStep, hf, Bool.false_eq_true, if_false]
      rw [routeOutPost_view, routeOutPost_view, hselErr]
    · simp [routeOutStep, hf]

/-- Claim C1 counterexample: for the failing target 0001 with error message
"<", the routing block emits a TargetErr event whose payload is the
json.Marshal encoding with HTML escaping enabled — the "<" is written as
\u003c — which differs from the encoding with HTML escaping disabled that the
claim prescribes. -/
theorem targetErr_payload_escaping_counterexample :
    (routeOutRun ("lbl") tmEx routeOutInit
        [RouteOutEvent.errRecv { target := tgtA, err := "<" } true WriteOutcome.sent]).events
      = [{ eventName := EventName.targetErr, target := tgtA,
           payload := some (errPayload ("<")) }]
    ∧ errPayload ("<") = "\x7b\"Error\":\"\\u003c\"\x7d"
    ∧ errPayloadNoHTMLEscape ("<") = "\x7b\"Error\":\"<\"\x7d"
    ∧ errPayload ("<") ≠ errPayloadNoHTMLEscape ("<") := by
  refine ⟨by decide, by decide, by decide, by decide⟩

/-- Claim C1 (amended): for every target that fails in a step with error
message m, the routing block emits a TargetErr event whose payload is the JSON
object with field "Error" set to m as encoded by json.Marshal, i.e. with Go's
default HTML escaping enabled (so <, > and & appear \u-escaped), not
disabled. -/
theorem routeOut_targetErr_event_payload (label : String) (tm : TestRunnerTimeouts)
    (s : RouteOutState) (te : TargetError) (emitOk : Bool) (fwd : WriteOutcome)
    (hf : s.finished = false) (hmem : te.target.id ∉ s.egress) :
    (routeOutStep label tm s (RouteOutEvent.errRecv te emitOk fwd)).events
      = s.events ++ [{ eventName := EventName.targetErr, target := te.target,
                       payload := some (errPayload te.err) }]
    ∧ errPayload te.err = "\x7b\"Error\":" ++ goEncodeString true te.err ++ "\x7d" := by
  constructor
  · cases fwd <;>
      simp [routeOutStep, routeOutSelect, hf, hmem, writeTargetError, routeOutPost_events,
        emitOutEvent]
  · rfl

/-- Witness for C1: the initial routeOut state receiving target 0002 with
error message "power &lt;= 0" (written here with an ampersand and angle
bracket: "power & < 0"). -/
theorem routeOut_targetErr_event_payload_witness :
    (routeOutStep ("w1") tmEx routeOutInit
        (RouteOutEvent.errRecv { target := tgtB, err := "power & < 0" } true
          WriteOutcome.sent)).events
      = routeOutInit.events
          ++ [{ eventName := EventName.targetErr, target := tgtB,
                payload := some (errPayload ("power & < 0")) }]
    ∧ errPayload ("power & < 0")
        = "\x7b\"Error\":" ++ goEncodeString true ("power & < 0") ++ "\x7d" :=
  routeOut_targetErr_event_payload ("w1") tmEx routeOutInit
    { target := tgtB, err := "power & < 0" } true WriteOutcome.sent (by decide) (by decide)

/-- The return value of routeIn: (0, err) when the loop broke with an error,
otherwise the size of the ingressTarget map and nil. -/
def routeInReturn (s : RouteInState) : Nat × Option RErr :=
  match s.err with
  | some e => (0, some e)
  | none => (s.ingress.length, none)

/-- The return value of routeOut: (0, err) when the loop broke with an error,
otherwise the size of the egressTarget map and nil. -/
def routeOutReturn (s : RouteOutState) : Nat × Option RErr :=
  match s.err with
  | some e => (0, some e)
  | none => (s.egress.length, none)

/-- The error-combination logic of stepRouter.route: routingErr is errRouteIn
if non-nil, else errRouteOut if non-nil, else the synthesized
target-count-mismatch error when the ingress and egress counts differ, else
nil. -/
def routeResultErr (label : String) (inTargets outTargets : Nat)
    (errRouteIn errRouteOut : Option RErr) : Option RErr :=
  let r1 := if errRouteIn.isNone then errRouteOut else errRouteIn
  if r1.isNone && inTargets != outTargets then
    some (RErr.countMismatch label inTargets outTargets)
  else r1

/-- Outcome of stepRouter.route's final select: the routeResult{bundle, err}
was delivered on resultCh within the Message timeout, or log.Panicf fired. -/
inductive RouteDelivery where
  | delivered (label : String) (err : Option RErr)
  | resultPostPanicked
deriving DecidableEq

/-- stepRouter.route: combine the results of the two completed activities and
deliver the routeResult to the pipeline (or panic if the delivery select times
out). -/
def route (label : String) (sIn : RouteInState) (sOut : RouteOutState)
    (deliver : Bool) : RouteDelivery :=
  let rIn := routeInReturn sIn
  let rOut := routeOutReturn sOut
  if deliver then
    RouteDelivery.delivered label (routeResultErr label rIn.1 rOut.1 rIn.2 rOut.2)
  else RouteDelivery.resultPostPanicked

/-- Claim C2: when routeIn and routeOut both complete, the routing error
delivered to the pipeline is the first non-nil of (errRouteIn, errRouteOut);
when both are nil and the injected and received counts differ, the
target-count-mismatch error is synthesized; when both are nil and the counts
agree, no error is delivered. -/
theorem route_first_nonnil_error (label : String) (sIn : RouteInState) (sOut : RouteOutState)
    (inT outT : Nat) (eIn eOut : Option RErr)
    (hIn : routeInReturn sIn = (inT, eIn)) (hOut : routeOutReturn sOut = (outT, eOut)) :
    route label sIn sOut true
      = RouteDelivery.delivered label (routeResultErr label inT outT eIn eOut)
    ∧ (eIn.isSome = true → routeResultErr label inT outT eIn eOut = eIn)
    ∧ (eIn = none → eOut.isSome = true → routeResultErr label inT outT eIn eOut = eOut)
    ∧ (eIn = none → eOut = none → inT ≠ outT →
        routeResultErr label inT outT eIn eOut = some (RErr.countMismatch label inT outT))
    ∧ (eIn = none → eOut = none → inT = outT →
        routeResultErr label inT outT eIn eOut = none) := by
  refine ⟨by simp [route, hIn, hOut], ?_, ?_, ?_, ?_⟩
  · intro h
    cases eIn with
    | none => simp at h
    | some e => simp [routeResultErr]
  · intro h1 h2
    cases eOut with
    | none => simp at h2
    | some e => simp [routeResultErr, h1]
  · intro h1 h2 h3
    simp [routeResultErr, h1, h2, h3]
  · intro h1 h2 h3
    simp [routeResultErr, h1, h2, h3]

/-- Witness for C2, exercising all four cases: a routeIn error wins, a routeOut
error is taken when routeIn succeeded, a count mismatch is synthesized when
both succeed with different counts, and a clean delivery carries nil. -/
theorem route_first_nonnil_error_witness :
    routeResultErr ("w2") 0 0 (some (RErr.terminationRequested ("w2"))) none
        = some (RErr.terminationRequested ("w2"))
    ∧ routeResultErr ("w2") 0 0 none (some (RErr.terminationRequested ("w2")))
        = some (RErr.terminationRequested ("w2"))
    ∧ routeResultErr ("w2") 2 1 none none = some (RErr.countMismatch ("w2") 2 1)
    ∧ routeResultErr ("w2") 2 2 none none = none
    ∧ route ("w2") { routeInInit with ingress := ["0001", "0002"] }
        { routeOutInit with egress := ["0001", "0002"] } true
        = RouteDelivery.delivered ("w2") none := by
  have hA := route_first_nonnil_error ("w2")
    { routeInInit with err := some (RErr.terminationRequested ("w2")) } routeOutInit
    0 0 (some (RErr.terminationRequested ("w2"))) none (by decide) (by decide)
  have hB := route_first_nonnil_error ("w2") routeInInit
    { routeOutInit with err := some (RErr.terminationRequested ("w2")) }
    0 0 none (some (RErr.terminationRequested ("w2"))) (by decide) (by decide)
  have hC := route_first_nonnil_error ("w2")
    { routeInInit with ingress := ["0001", "0002"] }
    { routeOutInit with egress := ["0001"] }
    2 1 none none (by decide) (by decide)
  have hD := route_first_nonnil_error ("w2")
    { routeInInit with ingress := ["0001", "0002"] }
    { routeOutInit with egress := ["0001", "0002"] }
    2 2 none none (by decide) (by decide)
  refine ⟨hA.2.1 (by decide), hB.2.2.1 (by decide) (by decide),
    hC.2.2.2.1 (by decide) (by decide) (by decide),
    hD.2.2.2.2 (by decide) (by decide) (by decide), ?_⟩
  rw [hD.1, hD.2.2.2.2 (by decide) (by decide) (by decide)]

/-- Events observed by the receive loop at the end of TestRunner.Run: a target
read from the completedTargets channel, or the pipeline goroutine's return
value arriving on errCh.  The pipeline itself (newPipeline/init/run) is
consumed through this interface only. -/
inductive RunnerEvent where
  | completedTarget (t : Target)
  | pipelineDone (err : Option String)
deriving DecidableEq

/-- The for/select loop of TestRunner.Run: completed targets are logged and
consumed; the first value received on errCh is returned. -/
def runnerWaitLoop : List RunnerEvent → Option (Option String)
  | [] => none
  | RunnerEvent.pipelineDone e :: _ => some e
  | RunnerEvent.completedTarget _ :: es => runnerWaitLoop es

/-- The runner loop returns exactly the pipeline's error, however many
completed targets it drains first. -/
theorem runnerWaitLoop_drains (cs : List Target) (e : Option String) :
    runnerWaitLoop (cs.map RunnerEvent.completedTarget ++ [RunnerEvent.pipelineDone e])
      = some e := by
  induction cs with
  | nil => rfl
  | cons c cs ih => simpa [runnerWaitLoop] using ih

/-- Result of TestRunner.Run: whether a pipeline was built and run, and what
Run returned (some (some m) = the error with message m, some none = nil, none =
the loop is still waiting). -/
structure RunOutcome where
  pipelineRan : Bool
  result : Option (Option String)
deriving DecidableEq

/-- TestRunner.Run: with an empty TestStepsBundles list it returns the error
"no steps to run for test" before building the pipeline; otherwise it builds
and runs the pipeline and enters the receive loop.  Bundles are identified by
their labels; errors are modelled by their messages. -/
def testRunnerRun (bundles : List String) (events : List RunnerEvent) : RunOutcome :=
  if bundles.length = 0 then
    { pipelineRan := false, result := some (some ("no steps to run for test")) }
  else { pipelineRan := true, result := runnerWaitLoop events }

/-- Claim C8 counterexample: with an empty bundle list, Run returns the error
message "no steps to run for test", which is not the message "no steps to run"
stated by the claim. -/
theorem run_no_steps_message_counterexample :
    (testRunnerRun [] []).result = some (some ("no steps to run for test"))
    ∧ (testRunnerRun [] []).pipelineRan = false
    ∧ "no steps to run for test" ≠ "no steps to run" := by
  refine ⟨by decide, by decide, by decide⟩

/-- Claim C8 (amended): for an empty list of step bundles, Run returns the
error "no steps to run for test" (not "no steps to run") without building or
running a pipeline; for every non-empty list it runs the pipeline and returns
the pipeline's error. -/
theorem run_no_steps_and_pipeline_error (bundles : List String) (cs : List Target)
    (e : Option String) (hne : bundles ≠ []) :
    testRunnerRun [] []
        = { pipelineRan := false, result := some (some ("no steps to run for test")) }
    ∧ testRunnerRun bundles (cs.map RunnerEvent.completedTarget ++ [RunnerEvent.pipelineDone e])
        = { pipelineRan := true, result := some e } := by
  constructor
  · rfl
  · have hlen : ¬ bundles.length = 0 := fun h => hne (List.length_eq_zero.mp h)
    simp [testRunnerRun, hlen, runnerWaitLoop_drains]

/-- Witness for C8: one step bundle, one completed target, pipeline returns
nil. -/
theorem run_no_steps_and_pipeline_error_witness :
    testRunnerRun [] []
        = { pipelineRan := false, result := some (some ("no steps to run for test")) }
    ∧ testRunnerRun [("step1")]
        ([tgtA].map RunnerEvent.completedTarget ++ [RunnerEvent.pipelineDone none])
        = { pipelineRan := true, result := some none } :=
  run_no_steps_and_pipeline_error [("step1")] [tgtA] none (by decide)
